import Mathlib

/-!
Verification of the Tuxedo order-book DEX tutorial.

This file shallowly embeds the validation core of the repository:

* `src/dex/src/lib.rs`: the `Order` data type, the `DexError` taxonomy and
  the two constraint checkers `MakeOrder::check` and `MatchOrders::check`;
* `src/frameless-runtime/src/utxo.rs`: the UTXO records (`Input`, `Output`,
  `Transaction`), `PieceExtracter::extract_from_output` and
  `PreValidator::pre_validate`.

Rust `u128` amounts are modelled as `Nat`; byte strings as `List Nat`;
fallible operations return `Except`.  External boundaries (storage `peek`,
signature `redeem`, SCALE decoders) are parameters to the embedded
functions, exactly as they are trait parameters in the source.
-/

namespace Tuxedo

/-- 4-byte type identifiers, as in `pub type TypeId = [u8; 4]`
(`src/frameless-runtime/src/utxo.rs`).  Modelled as a list of bytes. -/
abbrev TypeId := List Nat

/-- `DynamicallyTypedData`: a byte-encoded value tagged with a type id.
The concrete struct lives in the external `tuxedo_core::dynamic_typing`
module; the shape (`bytes` plus 4-byte `type_id`) is as used by the dex
piece and by `Output.data`/`Output.data_id` in `utxo.rs`. -/
structure DynamicallyTypedData where
  data : List Nat
  type_id : TypeId
deriving DecidableEq, Repr

/-- Generic typed extraction, `PieceExtracter::extract_from_output`
(`src/frameless-runtime/src/utxo.rs` lines 165-172) modulo field names:
fail if the record's type id differs from the target type's declared id,
then decode the bytes, any decode failure being a hard error. -/
def extractD {D : Type} (tid : TypeId) (dec : List Nat → Option D)
    (p : DynamicallyTypedData) : Except Unit D :=
  if p.type_id ≠ tid then .error ()
  else
    match dec p.data with
    | some d => .ok d
    | none => .error ()

/-- `Order<T>` from `src/dex/src/lib.rs`: amounts are `u128`, the payout
verifier is the configured verifier type `V`. -/
structure Order (V : Type) where
  offer_amount : Nat
  ask_amount : Nat
  payout_verifier : V
deriving DecidableEq, Repr

/-- `DexError` from `src/dex/src/lib.rs`. -/
inductive DexError where
  | TypeError
  | OrderMissing
  | TooManyOutputsWhenMakingOrder
  | NotEnoughCollateralToOpenOrder
  | OrderAndPayoutCountDiffer
  | PayoutDoesNotSatisfyOrder
  | InsufficientTokenAForMatch
  | InsufficientTokenBForMatch
  | VerifierMismatchForTrade
deriving DecidableEq, Repr

/-- A `DexConfig` instance: the verifier type `V` and token types `A`, `B`
are Lean type parameters; the remaining data records what the Rust trait
bounds provide — each token's `Cash::ID` byte and `UtxoData::TYPE_ID`,
its SCALE decoder and its `Cash::value` accessor, and the SCALE decoder
for `Order` payloads (`(u128, u128, Verifier)`, identical byte layout for
both sides of the pair). -/
structure DexConfig (V A B : Type) where
  idA : Nat
  idB : Nat
  typeIdA : TypeId
  typeIdB : TypeId
  decodeA : List Nat → Option A
  decodeB : List Nat → Option B
  valueA : A → Nat
  valueB : B → Nat
  decodeOrder : List Nat → Option (Order V)

variable {V A B : Type}

/-- `impl UtxoData for Order<T>`: `TYPE_ID = [b'$', b'$', T::A::ID, T::B::ID]`
(`src/dex/src/lib.rs` line 82).  `b'$' = 36`. -/
def orderTypeId (cfg : DexConfig V A B) : TypeId :=
  [36, 36, cfg.idA, cfg.idB]

/-- `Order<OppositeSide<T>>` type id: the token ids swapped
(`OppositeSide` swaps `A` and `B`, `src/dex/src/lib.rs` lines 53-57). -/
def oppositeOrderTypeId (cfg : DexConfig V A B) : TypeId :=
  [36, 36, cfg.idB, cfg.idA]

/-- `input.extract::<T::A>()`. -/
def extractA (cfg : DexConfig V A B) : DynamicallyTypedData → Except Unit A :=
  extractD cfg.typeIdA cfg.decodeA

/-- `output.extract::<T::B>()`. -/
def extractB (cfg : DexConfig V A B) : DynamicallyTypedData → Except Unit B :=
  extractD cfg.typeIdB cfg.decodeB

/-- `payload.extract::<Order<T>>()`. -/
def extractOrder (cfg : DexConfig V A B) :
    DynamicallyTypedData → Except Unit (Order V) :=
  extractD (orderTypeId cfg) cfg.decodeOrder

/-- `payload.extract::<Order<OppositeSide<T>>>()`. -/
def extractOppositeOrder (cfg : DexConfig V A B) :
    DynamicallyTypedData → Except Unit (Order V) :=
  extractD (oppositeOrderTypeId cfg) cfg.decodeOrder

/-- The collateral-summing loop of `MakeOrder::check`
(`src/dex/src/lib.rs` lines 148-152): starting from the accumulator,
extract each input as a token-A payload (failure converts to `TypeError`
via `From<DynamicTypingError> for DexError`) and add its value. -/
def sumCollateral (cfg : DexConfig V A B) (acc : Nat) :
    List DynamicallyTypedData → Except DexError Nat
  | [] => .ok acc
  | i :: rest =>
    match extractA cfg i with
    | .error _ => .error .TypeError
    | .ok coin => sumCollateral cfg (acc + cfg.valueA coin) rest

/-- `MakeOrder::check` (`src/dex/src/lib.rs` lines 133-157).  The two
`ensure!` guards on the output count, the extraction of the single output
as an `Order`, the collateral loop, and the exact-equality collateral
check.  The returned `TransactionPriority` is a `Nat`. -/
def MakeOrder.check (cfg : DexConfig V A B)
    (input_data output_data : List DynamicallyTypedData) :
    Except DexError Nat :=
  match output_data with
  | [] => .error .OrderMissing
  | [o] =>
    match extractOrder cfg o with
    | .error _ => .error .TypeError
    | .ok order =>
      match sumCollateral cfg 0 input_data with
      | .error e => .error e
      | .ok total_collateral =>
        if total_collateral = order.offer_amount then .ok 0
        else .error .NotEnoughCollateralToOpenOrder
  | _ :: _ :: _ => .error .TooManyOutputsWhenMakingOrder

/-- `tuxedo_core::types::Output<V>`: a typed payload guarded by a verifier,
as consumed by `MatchOrders::check` (`inputs: &[Output<T::Verifier>]`). -/
structure TOutput (V : Type) where
  payload : DynamicallyTypedData
  verifier : V
deriving DecidableEq, Repr

/-- The four running totals of `MatchOrders::check`
(`src/dex/src/lib.rs` lines 184-187), all starting at 0. -/
structure MatchState where
  total_a_required : Nat
  total_b_required : Nat
  a_so_far : Nat
  b_so_far : Nat
deriving DecidableEq, Repr

/-- The all-zero initial `MatchState`. -/
def MatchState.init : MatchState := ⟨0, 0, 0, 0⟩

/-- One iteration of the `MatchOrders::check` loop
(`src/dex/src/lib.rs` lines 192-232): try the input as a primary-side
order, then as an opposite-side order; accumulate the totals and check
the positionally paired payout's value and verifier. -/
def matchStep [DecidableEq V] (cfg : DexConfig V A B) (s : MatchState)
    (input output : TOutput V) : Except DexError MatchState :=
  match extractOrder cfg input.payload with
  | .ok order =>
    let s := { s with
      a_so_far := s.a_so_far + order.offer_amount,
      total_b_required := s.total_b_required + order.ask_amount }
    match extractB cfg output.payload with
    | .error _ => .error .TypeError
    | .ok payout =>
      if cfg.valueB payout = order.ask_amount then
        if output.verifier = order.payout_verifier then .ok s
        else .error .VerifierMismatchForTrade
      else .error .PayoutDoesNotSatisfyOrder
  | .error _ =>
    match extractOppositeOrder cfg input.payload with
    | .ok order =>
      let s := { s with
        b_so_far := s.b_so_far + order.offer_amount,
        total_a_required := s.total_a_required + order.ask_amount }
      match extractA cfg output.payload with
      | .error _ => .error .TypeError
      | .ok payout =>
        if cfg.valueA payout = order.ask_amount then
          if output.verifier = order.payout_verifier then .ok s
          else .error .VerifierMismatchForTrade
        else .error .PayoutDoesNotSatisfyOrder
    | .error _ => .error .TypeError

/-- The full `for (input, output) in inputs.iter().zip(outputs)` loop:
thread the `MatchState` through `matchStep`, stopping at the first
error. -/
def matchLoop [DecidableEq V] (cfg : DexConfig V A B) (s : MatchState) :
    List (TOutput V × TOutput V) → Except DexError MatchState
  | [] => .ok s
  | (i, o) :: rest =>
    match matchStep cfg s i o with
    | .error e => .error e
    | .ok s' => matchLoop cfg s' rest

/-- `MatchOrders::check` (`src/dex/src/lib.rs` lines 169-245): the length
guard, the pairwise loop, and the two final aggregate sufficiency
checks. -/
def MatchOrders.check [DecidableEq V] (cfg : DexConfig V A B)
    (inputs outputs : List (TOutput V)) : Except DexError Nat :=
  if inputs.length = outputs.length then
    match matchLoop cfg MatchState.init (inputs.zip outputs) with
    | .error e => .error e
    | .ok s =>
      if s.a_so_far ≥ s.total_a_required then
        if s.b_so_far ≥ s.total_b_required then .ok 0
        else .error .InsufficientTokenBForMatch
      else .error .InsufficientTokenAForMatch
  else .error .OrderAndPayoutCountDiffer

/-! ### The UTXO layer (`src/frameless-runtime/src/utxo.rs`) -/

/-- `pub struct Input { output: OutputRef, witness: Sig }`.  An
`OutputRef` is an `H256`, modelled as a `Nat`; the witness is a byte
string. -/
structure Input where
  output : Nat
  witness : List Nat
deriving DecidableEq, Repr

/-- `pub struct Output { redeemer: Redeemer, data: Value, data_id: TypeId }`.
The redeemer (an `H256`) is modelled as a `Nat`. -/
structure Utxo where
  redeemer : Nat
  data : List Nat
  data_id : TypeId
deriving DecidableEq, Repr

/-- `pub struct Transaction { inputs, peeks, outputs }`. -/
structure Transaction where
  inputs : List Input
  peeks : Option (List Input)
  outputs : List Utxo
deriving DecidableEq, Repr

/-- The per-input loop of `pre_validate` (`utxo.rs` lines 103-111):
peek each referenced output — absence fails the transaction — and run
the redeemer over the encoded transaction and the input's witness. -/
def redeemLoop (peek : Nat → Option Utxo)
    (redeem : Nat → List Nat → List Nat → Bool)
    (encodedTx : List Nat) : List Input → Except Unit Unit
  | [] => .ok ()
  | i :: rest =>
    match peek i.output with
    | some utxo =>
      if redeem utxo.redeemer encodedTx i.witness then
        redeemLoop peek redeem encodedTx rest
      else .error ()
    | none => .error ()

/-- `PreValidator::pre_validate` (`utxo.rs` lines 95-113).  The duplicate
check collects `transaction.inputs` into a `BTreeSet<&Input>` — i.e. the
number of *distinct whole `Input` records* (reference and witness
together) is compared against the sequence length; `List.dedup` plays
the role of the set.  `peek` (storage) and `redeem` (sr25519
verification) are external boundaries, passed as parameters, as is the
SCALE encoding of the transaction that `redeem` is run against. -/
def pre_validate (peek : Nat → Option Utxo)
    (redeem : Nat → List Nat → List Nat → Bool)
    (encodeTx : Transaction → List Nat)
    (tx : Transaction) : Except Unit Unit :=
  if tx.inputs.dedup.length < tx.inputs.length then .error ()
  else redeemLoop peek redeem (encodeTx tx) tx.inputs

/-- `PieceExtracter::extract_from_output` (`utxo.rs` lines 165-172),
stated over the concrete `Utxo` record: a piece is its 4-byte `TYPE_ID`
plus its `Data` decoder. -/
def extract_from_output {D : Type} (tid : TypeId)
    (dec : List Nat → Option D) (utxo : Utxo) : Except Unit D :=
  if utxo.data_id ≠ tid then .error ()
  else
    match dec utxo.data with
    | some d => .ok d
    | none => .error ()

/-! ### Concrete test fixtures

A small executable `DexConfig` (verifiers and coins are `Nat`s, payloads
are decoded from singleton / triple byte lists) used to evaluate the
theorems below on concrete transactions, mirroring `TestConfig` in
`src/dex/src/tests.rs`. -/

/-- A concrete executable configuration: token ids 10 and 20, coins
decode from a one-element list holding their value, orders decode from a
three-element list `[offer, ask, verifier]`. -/
def testCfg : DexConfig Nat Nat Nat where
  idA := 10
  idB := 20
  typeIdA := [0, 0, 0, 10]
  typeIdB := [0, 0, 0, 20]
  decodeA := fun l => match l with | [v] => some v | _ => none
  decodeB := fun l => match l with | [v] => some v | _ => none
  valueA := fun v => v
  valueB := fun v => v
  decodeOrder := fun l =>
    match l with | [off, ask, ver] => some ⟨off, ask, ver⟩ | _ => none

/-- A token-A payload of value `v` under `testCfg`. -/
def coinA (v : Nat) : DynamicallyTypedData := ⟨[v], [0, 0, 0, 10]⟩

/-- A token-B payload of value `v` under `testCfg`. -/
def coinB (v : Nat) : DynamicallyTypedData := ⟨[v], [0, 0, 0, 20]⟩

/-- A primary-side order payload under `testCfg`. -/
def orderPayload (off ask ver : Nat) : DynamicallyTypedData :=
  ⟨[off, ask, ver], [36, 36, 10, 20]⟩

/-- An opposite-side order payload under `testCfg`. -/
def oppOrderPayload (off ask ver : Nat) : DynamicallyTypedData :=
  ⟨[off, ask, ver], [36, 36, 20, 10]⟩

/-! ### Theorems -/

/-- C7: typed extraction errors exactly when the record's type id differs
from the target's declared id or the bytes fail to decode; it succeeds
with value `d` exactly when the id matches and the bytes decode to `d`
(so decode failure never yields a default value). -/
theorem extract_from_output_spec {D : Type} (tid : TypeId)
    (dec : List Nat → Option D) (utxo : Utxo) :
    (∀ d : D, extract_from_output tid dec utxo = .ok d ↔
        utxo.data_id = tid ∧ dec utxo.data = some d) ∧
    (extract_from_output tid dec utxo = .error () ↔
        utxo.data_id ≠ tid ∨ dec utxo.data = none) := by
  unfold extract_from_output
  by_cases h : utxo.data_id = tid <;>
    cases hd : dec utxo.data <;> simp [h, hd]

/-- C9: matching an empty batch succeeds with priority 0. -/
theorem matchOrders_empty_batch {V A B : Type} [DecidableEq V]
    (cfg : DexConfig V A B) :
    MatchOrders.check cfg ([] : List (TOutput V)) [] = .ok 0 := rfl

/-- C5: whenever the numbers of inputs and outputs differ, `MatchOrders`
fails with `OrderAndPayoutCountDiffer`. -/
theorem matchOrders_length_mismatch {V A B : Type} [DecidableEq V]
    (cfg : DexConfig V A B) (inputs outputs : List (TOutput V))
    (h : inputs.length ≠ outputs.length) :
    MatchOrders.check cfg inputs outputs =
      .error .OrderAndPayoutCountDiffer := by
  simp [MatchOrders.check, h]

/-- Witness for C5: one input against zero outputs is rejected. -/
theorem matchOrders_length_mismatch_witness :
    MatchOrders.check testCfg [⟨coinA 1, 0⟩] [] =
      .error .OrderAndPayoutCountDiffer :=
  matchOrders_length_mismatch testCfg [⟨coinA 1, 0⟩] [] (by decide)

/-- C6: making an order with no outputs fails with `OrderMissing`, and
with two or more outputs fails with `TooManyOutputsWhenMakingOrder`, in
both cases whatever the inputs are. -/
theorem makeOrder_output_count {V A B : Type} (cfg : DexConfig V A B)
    (inputs : List DynamicallyTypedData) :
    MakeOrder.check cfg inputs [] = .error .OrderMissing ∧
    ∀ outputs : List DynamicallyTypedData, 2 ≤ outputs.length →
      MakeOrder.check cfg inputs outputs =
        .error .TooManyOutputsWhenMakingOrder := by
  refine ⟨rfl, fun outputs h2 => ?_⟩
  match outputs with
  | [] => simp at h2
  | [o] => simp at h2
  | _ :: _ :: _ => rfl

/-- Witness for C6, echoing the reversed-roles test in
`src/dex/src/tests.rs`: an order as input and two coins as outputs. -/
theorem makeOrder_output_count_witness :
    MakeOrder.check testCfg [orderPayload 100 150 7] [] =
      .error .OrderMissing ∧
    MakeOrder.check testCfg [orderPayload 100 150 7] [coinA 40, coinA 60] =
      .error .TooManyOutputsWhenMakingOrder :=
  ⟨(makeOrder_output_count testCfg [orderPayload 100 150 7]).1,
   (makeOrder_output_count testCfg [orderPayload 100 150 7]).2
     [coinA 40, coinA 60] (by decide)⟩

/-- C10: with no inputs and a single output that extracts as an order,
making the order succeeds exactly when its `offer_amount` is 0, whatever
its `ask_amount`. -/
theorem makeOrder_no_collateral {V A B : Type} (cfg : DexConfig V A B)
    (o : DynamicallyTypedData) (order : Order V)
    (ho : extractOrder cfg o = .ok order) :
    MakeOrder.check cfg [] [o] = .ok 0 ↔ order.offer_amount = 0 := by
  simp only [MakeOrder.check, ho, sumCollateral]
  by_cases h : order.offer_amount = 0 <;> simp [h, eq_comm]

/-- Witness for C10: an order offering 0 while asking 5 opens with no
collateral at all. -/
theorem makeOrder_no_collateral_witness :
    MakeOrder.check testCfg [] [orderPayload 0 5 7] = .ok 0 :=
  (makeOrder_no_collateral testCfg (orderPayload 0 5 7) ⟨0, 5, 7⟩ rfl).mpr rfl

/-- If every input extracts as a token-A payload, yielding `coins`, the
collateral loop of `MakeOrder::check` returns the accumulator plus the
sum of the coins' values. -/
theorem sumCollateral_eq_sum {V A B : Type} (cfg : DexConfig V A B) :
    ∀ (inputs : List DynamicallyTypedData) (coins : List A) (acc : Nat),
      inputs.mapM (extractA cfg) = .ok coins →
      sumCollateral cfg acc inputs = .ok (acc + (coins.map cfg.valueA).sum) := by
  intro inputs
  induction inputs with
  | nil =>
    intro coins acc h
    simp only [List.mapM_nil, pure, Except.pure, Except.ok.injEq] at h
    subst h
    simp [sumCollateral]
  | cons i rest ih =>
    intro coins acc h
    rw [List.mapM_cons] at h
    cases hx : extractA cfg i with
    | error e => rw [hx] at h; simp [Bind.bind, Except.bind] at h
    | ok c =>
      rw [hx] at h
      simp only [Bind.bind, Except.bind] at h
      cases hr : rest.mapM (extractA cfg) with
      | error e => rw [hr] at h; simp at h
      | ok cs =>
        rw [hr] at h
        simp only [pure, Except.pure, Except.ok.injEq] at h
        subst h
        simp only [sumCollateral, hx]
        rw [ih cs (acc + cfg.valueA c) hr]
        simp [Nat.add_assoc]

/-- C1: when the single output extracts as an order and every input
extracts as a token-A payload, `MakeOrder::check` succeeds exactly when
the summed input values equal the order's `offer_amount`; any other sum
— under- or over-payment alike — fails with
`NotEnoughCollateralToOpenOrder`. -/
theorem makeOrder_collateral_exact {V A B : Type} (cfg : DexConfig V A B)
    (inputs : List DynamicallyTypedData) (o : DynamicallyTypedData)
    (order : Order V) (coins : List A)
    (ho : extractOrder cfg o = .ok order)
    (hc : inputs.mapM (extractA cfg) = .ok coins) :
    MakeOrder.check cfg inputs [o] =
      if (coins.map cfg.valueA).sum = order.offer_amount then .ok 0
      else .error .NotEnoughCollateralToOpenOrder := by
  have hs := sumCollateral_eq_sum cfg inputs coins 0 hc
  simp only [MakeOrder.check, ho, hs, Nat.zero_add]

/-- Witness for C1: coins 40 + 60 open an order offering 100
(the `summing_two_coins_for_collateral_works` test), while 40 + 61 — an
overpayment by 1 — is rejected. -/
theorem makeOrder_collateral_exact_witness :
    MakeOrder.check testCfg [coinA 40, coinA 60] [orderPayload 100 150 7] =
      .ok 0 ∧
    MakeOrder.check testCfg [coinA 40, coinA 61] [orderPayload 100 150 7] =
      .error .NotEnoughCollateralToOpenOrder := by
  constructor
  · simpa using makeOrder_collateral_exact testCfg [coinA 40, coinA 60]
      (orderPayload 100 150 7) ⟨100, 150, 7⟩ [40, 60] rfl rfl
  · simpa using makeOrder_collateral_exact testCfg [coinA 40, coinA 61]
      (orderPayload 100 150 7) ⟨100, 150, 7⟩ [40, 61] rfl rfl

/-- C3: with matching lengths and every pair passing the per-pair
checks (the loop returns a final state `s`), `MatchOrders::check` fails
with `InsufficientTokenAForMatch` when `a_so_far < total_a_required`,
otherwise with `InsufficientTokenBForMatch` when
`b_so_far < total_b_required`, and otherwise succeeds with priority 0 —
surplus on either side is accepted. -/
theorem matchOrders_aggregate {V A B : Type} [DecidableEq V]
    (cfg : DexConfig V A B) (inputs outputs : List (TOutput V))
    (s : MatchState)
    (hlen : inputs.length = outputs.length)
    (hloop : matchLoop cfg MatchState.init (inputs.zip outputs) = .ok s) :
    MatchOrders.check cfg inputs outputs =
      if s.a_so_far < s.total_a_required then
        .error .InsufficientTokenAForMatch
      else if s.b_so_far < s.total_b_required then
        .error .InsufficientTokenBForMatch
      else .ok 0 := by
  simp only [MatchOrders.check, if_pos hlen, hloop, ge_iff_le]
  by_cases ha : s.total_a_required ≤ s.a_so_far
  · by_cases hb : s.total_b_required ≤ s.b_so_far
    · simp [ha, hb, Nat.not_lt.mpr ha, Nat.not_lt.mpr hb]
    · simp [ha, hb, Nat.not_lt.mpr ha, Nat.lt_of_not_le hb]
  · simp [ha, Nat.lt_of_not_le ha]

/-- Witness for C3: order 1 offers 100 A asking 150 B, order 2 offers
150 B asking 100 A, each payout exact and correctly owned; the batch
matches with priority 0. -/
theorem matchOrders_aggregate_witness :
    MatchOrders.check testCfg
      [⟨orderPayload 100 150 7, 0⟩, ⟨oppOrderPayload 150 100 8, 0⟩]
      [⟨coinB 150, 7⟩, ⟨coinA 100, 8⟩] = .ok 0 := by
  simpa using matchOrders_aggregate testCfg
    [⟨orderPayload 100 150 7, 0⟩, ⟨oppOrderPayload 150 100 8, 0⟩]
    [⟨coinB 150, 7⟩, ⟨coinA 100, 8⟩] ⟨100, 150, 100, 150⟩ rfl (by rfl)

/-- C4: the per-pair checks of `MatchOrders::check`.  A primary-side
order accumulates into `a_so_far`/`total_b_required` and its payout is
checked as token B for exact value and matching verifier; an input that
only extracts as an opposite-side order gets the symmetric treatment
against token A; an input extracting as neither side fails with
`TypeError`. -/
theorem matchStep_pair_checks {V A B : Type} [DecidableEq V]
    (cfg : DexConfig V A B) (s : MatchState) (input output : TOutput V) :
    (∀ order : Order V, extractOrder cfg input.payload = .ok order →
      matchStep cfg s input output =
        match extractB cfg output.payload with
        | .error _ => .error .TypeError
        | .ok payout =>
          if cfg.valueB payout = order.ask_amount then
            if output.verifier = order.payout_verifier then
              .ok { s with
                a_so_far := s.a_so_far + order.offer_amount,
                total_b_required := s.total_b_required + order.ask_amount }
            else .error .VerifierMismatchForTrade
          else .error .PayoutDoesNotSatisfyOrder) ∧
    (∀ (e : Unit) (order : Order V),
      extractOrder cfg input.payload = .error e →
      extractOppositeOrder cfg input.payload = .ok order →
      matchStep cfg s input output =
        match extractA cfg output.payload with
        | .error _ => .error .TypeError
        | .ok payout =>
          if cfg.valueA payout = order.ask_amount then
            if output.verifier = order.payout_verifier then
              .ok { s with
                b_so_far := s.b_so_far + order.offer_amount,
                total_a_required := s.total_a_required + order.ask_amount }
            else .error .VerifierMismatchForTrade
          else .error .PayoutDoesNotSatisfyOrder) ∧
    (∀ e e' : Unit, extractOrder cfg input.payload = .error e →
      extractOppositeOrder cfg input.payload = .error e' →
      matchStep cfg s input output = .error .TypeError) := by
  refine ⟨fun order ho => ?_, fun e order he ho => ?_,
    fun e e' he ho => ?_⟩
  · simp only [matchStep, ho]
  · simp only [matchStep, he, ho]
  · simp only [matchStep, he, ho]

/-- Witness for C4: a primary-side order paired with its exact token-B
payout is accepted into the running state; a plain coin input, which is
an order on neither side, fails with `TypeError`. -/
theorem matchStep_pair_checks_witness :
    matchStep testCfg MatchState.init ⟨orderPayload 100 150 7, 0⟩
      ⟨coinB 150, 7⟩ = .ok ⟨0, 150, 100, 0⟩ ∧
    matchStep testCfg MatchState.init ⟨coinA 5, 0⟩ ⟨coinA 5, 0⟩ =
      .error .TypeError := by
  constructor
  · simpa using (matchStep_pair_checks testCfg MatchState.init
      ⟨orderPayload 100 150 7, 0⟩ ⟨coinB 150, 7⟩).1 ⟨100, 150, 7⟩ rfl
  · exact (matchStep_pair_checks testCfg MatchState.init
      ⟨coinA 5, 0⟩ ⟨coinA 5, 0⟩).2.2 () () rfl rfl

/-- C8: both checkers are total functions of their inputs — on every
argument they terminate with either success (always priority 0) or one
of the `DexError`s.  Totality is inherent in the embedding: both
functions are single structural passes over their input lists. -/
theorem dex_checkers_total {V A B : Type} [DecidableEq V]
    (cfg : DexConfig V A B) :
    (∀ input_data output_data : List DynamicallyTypedData,
        MakeOrder.check cfg input_data output_data = .ok 0 ∨
        ∃ e, MakeOrder.check cfg input_data output_data = .error e) ∧
    (∀ inputs outputs : List (TOutput V),
        MatchOrders.check cfg inputs outputs = .ok 0 ∨
        ∃ e, MatchOrders.check cfg inputs outputs = .error e) := by
  constructor
  · intro input_data output_data
    match output_data with
    | [] => exact .inr ⟨_, rfl⟩
    | [o] =>
      cases ho : extractOrder cfg o with
      | error e => exact .inr ⟨.TypeError, by simp [MakeOrder.check, ho]⟩
      | ok order =>
        cases hs : sumCollateral cfg 0 input_data with
        | error e => exact .inr ⟨e, by simp [MakeOrder.check, ho, hs]⟩
        | ok total =>
          by_cases ht : total = order.offer_amount
          · exact .inl (by simp [MakeOrder.check, ho, hs, ht])
          · exact .inr ⟨.NotEnoughCollateralToOpenOrder,
              by simp [MakeOrder.check, ho, hs, ht]⟩
    | _ :: _ :: _ => exact .inr ⟨_, rfl⟩
  · intro inputs outputs
    by_cases hlen : inputs.length = outputs.length
    · cases hl : matchLoop cfg MatchState.init (inputs.zip outputs) with
      | error e => exact .inr ⟨e, by simp [MatchOrders.check, hlen, hl]⟩
      | ok s =>
        by_cases ha : s.total_a_required ≤ s.a_so_far
        · by_cases hb : s.total_b_required ≤ s.b_so_far
          · exact .inl (by simp [MatchOrders.check, hlen, hl, ha, hb])
          · exact .inr ⟨.InsufficientTokenBForMatch,
              by simp [MatchOrders.check, hlen, hl, ha, hb]⟩
        · exact .inr ⟨.InsufficientTokenAForMatch,
              by simp [MatchOrders.check, hlen, hl, ha]⟩
    · exact .inr ⟨.OrderAndPayoutCountDiffer, by simp [MatchOrders.check, hlen]⟩

/-- Counterexample to C2: the duplicate check of `pre_validate` keys its
set by the *whole* `Input` record, not by `output_reference` alone.  A
transaction whose two inputs reference the same output 5 but carry
different witness bytes is *accepted* (with storage holding the output
and the redeemer passing), contradicting the claim that any transaction
with two inputs sharing an `output_reference` is rejected. -/
theorem pre_validate_dup_ref_not_rejected :
    (Transaction.mk [⟨5, [0]⟩, ⟨5, [1]⟩] none []).inputs.map Input.output =
      [5, 5] ∧
    pre_validate (fun _ => some ⟨0, [], [0, 0, 0, 0]⟩) (fun _ _ _ => true)
      (fun _ => []) ⟨[⟨5, [0]⟩, ⟨5, [1]⟩], none, []⟩ = .ok () :=
  ⟨rfl, by rfl⟩

/-- C2 as amended: the Pre-Validator's set is keyed by the entire
`Input` (reference and witness together), so any transaction whose
input sequence repeats a whole `Input` record — i.e. is not `Nodup` —
is rejected, whatever the storage and redeemer do. -/
theorem pre_validate_rejects_duplicate_inputs
    (peek : Nat → Option Utxo) (redeem : Nat → List Nat → List Nat → Bool)
    (encodeTx : Transaction → List Nat) (tx : Transaction)
    (h : ¬ tx.inputs.Nodup) :
    pre_validate peek redeem encodeTx tx = .error () := by
  have hsub : tx.inputs.dedup.Sublist tx.inputs := List.dedup_sublist _
  have hlt : tx.inputs.dedup.length < tx.inputs.length := by
    rcases Nat.lt_or_ge tx.inputs.dedup.length tx.inputs.length with hlt | hge
    · exact hlt
    · have heq : tx.inputs.dedup = tx.inputs :=
        hsub.eq_of_length (Nat.le_antisymm hsub.length_le hge)
      exact absurd (List.dedup_eq_self.mp heq) h
  simp [pre_validate, hlt]

/-- Witness for the amended C2: two fully identical inputs (same
reference 5, same witness) are rejected outright. -/
theorem pre_validate_rejects_duplicate_inputs_witness :
    pre_validate (fun _ => some ⟨0, [], [0, 0, 0, 0]⟩) (fun _ _ _ => true)
      (fun _ => []) ⟨[⟨5, [0]⟩, ⟨5, [0]⟩], none, []⟩ = .error () :=
  pre_validate_rejects_duplicate_inputs _ _ _ _ (by decide)

end Tuxedo
